import Mathlib

/-!
Verification development for the `api_bb` client library (files
`api_bb/common.py` and `api_bb/accountability.py`).

The development shallowly embeds the parts of the library that the
specification talks about:

* the helper functions of `common.py` (`_get_headers`,
  `_handle_numeric_string_with_symbols`, `_handle_dates`,
  `_handle_results`);
* the token cache of `_AccountabilityV3BaseAPI`
  (`_check_and_update_access_token`);
* the credential resolution performed in
  `_AccountabilityV3BaseAPI.__init__`;
* the request built by every data-plane operation of
  `AccountabilityV3RepasseAPI` and `AccountabilityV3ControleAPI`
  (method, URL, headers, query parameters, body), and the status check
  and error message of each operation.

External collaborators are modelled by their documented behaviour:

* `pandas`: `pd.DataFrame` over a list of mappings produces one row per
  element (missing keys become NaN); `pd.DataFrame` over a mapping whose
  values are all scalars raises `ValueError: If using all scalar values,
  you must pass an index`; `df.explode(col)` turns a length-N list cell
  into N rows, an empty-list cell into a single NaN cell, and leaves
  non-list cells unchanged; `df[col] = scalar` broadcasts; `df.rename`
  renames the columns present in the mapping.  Mapping-valued cells in
  the `pd.DataFrame(dict)` constructor use pandas index alignment, which
  this model does not cover: those inputs are mapped to a distinct
  "unmodelled" error and no theorem below depends on them.
* `requests`: `requests.request(method, url, headers, params, data)`
  sends `params` as the query string and serializes a `data=` dict as an
  `application/x-www-form-urlencoded` body (a JSON body would require the
  `json=` argument, which the library never uses).
* Python `re` with a `str` pattern: `\D` matches any character that is
  not a Unicode decimal digit (category Nd), so `re.sub` keeps exactly
  the Nd characters.
* Python `os.getenv(name, default)` returns the environment value when
  the variable is set and `default` otherwise.

Python exceptions are modelled with `Except String`; the Python value
`None` appearing as a request-parameter value is modelled by
`PVal.noneVal`.
-/

deriving instance DecidableEq for Except

/-! ## JSON-like values and a pandas-subset table model -/

/-- A JSON value as returned by `res.json()` and consumed by
`_handle_results`.  `nan` is the missing-value marker pandas inserts for
absent keys and exploded empty lists. -/
inductive Val where
  | nan : Val
  | int (n : Int) : Val
  | str (s : String) : Val
  | bool (b : Bool) : Val
  | list (l : List Val) : Val
  | obj (fields : List (String × Val)) : Val
deriving Repr

/-- One table row: the cell values keyed by column name. -/
abbrev Row := List (String × Val)

/-- The in-memory table (`pd.DataFrame`): column names in order, and the
rows; every row built by the operations below carries exactly the columns
of `cols`, in the same order. -/
structure DF where
  cols : List String
  rows : List Row
deriving Repr

/-- First value stored under key `k` in an association list. -/
def alookup {α : Type} (r : List (String × α)) (k : String) : Option α :=
  match r with
  | [] => none
  | p :: rest => if p.1 = k then some p.2 else alookup rest k

/-- Cell of a row at column `k`; missing keys read as NaN, as in pandas. -/
def rowGet (r : Row) (k : String) : Val :=
  (alookup r k).getD Val.nan

/-- Replace the value stored at column `k` (other columns untouched). -/
def rowSet (r : Row) (k : String) (v : Val) : Row :=
  r.map (fun p => if p.1 = k then (p.1, v) else p)

/-- Union of the keys of a list of mappings, in order of first appearance:
the column set `pd.DataFrame` derives from a list of dicts. -/
def unionKeys (records : List (List (String × Val))) : List String :=
  records.foldl
    (fun acc r =>
      r.foldl (fun acc2 p => if acc2.contains p.1 then acc2 else acc2 ++ [p.1]) acc)
    []

/-- The mapping fields of a JSON object, if the value is an object. -/
def recordFields : Val → Option (List (String × Val))
  | .obj fields => some fields
  | _ => none

/-- Extract the field lists of a list of records, failing when some
element is not a mapping. -/
def recordFieldsList : List Val → Option (List (List (String × Val)))
  | [] => some []
  | v :: rest =>
    match recordFields v, recordFieldsList rest with
    | some f, some fs => some (f :: fs)
    | _, _ => none

/-- `pd.DataFrame(records)` for a JSON list of mappings: one row per
element in source order; the columns are the union of the keys and a key
missing from a record reads as NaN. -/
def pdDataFrameOfRecords (records : List Val) : Except String DF :=
  match recordFieldsList records with
  | none => Except.error "unmodelled: DataFrame over non-mapping records"
  | some frs =>
    let cols := unionKeys frs
    Except.ok ⟨cols, frs.map (fun r => cols.map (fun c => (c, rowGet r c)))⟩

/-- True for values pandas treats as scalars in the `pd.DataFrame(dict)`
constructor (everything except lists and mappings). -/
def isScalar : Val → Bool
  | .list _ => false
  | .obj _ => false
  | _ => true

/-- True exactly for list values. -/
def isListVal : Val → Bool
  | .list _ => true
  | _ => false

/-- True exactly for mapping values. -/
def isObjVal : Val → Bool
  | .obj _ => true
  | _ => false

/-- Element `i` of a column value in the `pd.DataFrame(dict)` constructor:
lists are indexed, scalars broadcast. -/
def cellAt (v : Val) (i : Nat) : Val :=
  match v with
  | .list l => (l.get? i).getD Val.nan
  | w => w

/-- `pd.DataFrame(mapping)`: an empty mapping gives an empty table; a
non-empty mapping whose values are all scalars raises
`ValueError: If using all scalar values, you must pass an index`;
otherwise the list values become columns (all lists must have the same
length) and scalars broadcast.  Mapping values trigger pandas index
alignment, which is outside this model. -/
def pdDataFrameOfMapping (fields : List (String × Val)) : Except String DF :=
  match fields with
  | [] => Except.ok ⟨[], []⟩
  | _ =>
    if fields.all (fun p => isScalar p.2) then
      Except.error "If using all scalar values, you must pass an index"
    else if fields.any (fun p => isObjVal p.2) then
      Except.error "unmodelled: mapping value is itself a mapping"
    else
      let lens := fields.filterMap (fun p =>
        match p.2 with
        | .list l => some l.length
        | _ => none)
      match lens with
      | [] => Except.error "unreachable"
      | n :: rest =>
        if rest.all (fun m => m == n) then
          Except.ok ⟨fields.map Prod.fst,
            (List.range n).map (fun i => fields.map (fun p => (p.1, cellAt p.2 i)))⟩
        else
          Except.error "All arrays must be of the same length"

/-- Add a column holding the same value in every row, appending the column
when it does not exist yet (`df[k] = scalar`). -/
def setColConst (df : DF) (k : String) (v : Val) : DF :=
  if df.cols.contains k then
    ⟨df.cols, df.rows.map (fun r => rowSet r k v)⟩
  else
    ⟨df.cols ++ [k], df.rows.map (fun r => r ++ [(k, v)])⟩

/-- Add a column from a list of per-row values (`df[k] = list`). -/
def setColVals (df : DF) (k : String) (l : List Val) : DF :=
  if df.cols.contains k then
    ⟨df.cols, (df.rows.zip l).map (fun p => rowSet p.1 k p.2)⟩
  else
    ⟨df.cols ++ [k], (df.rows.zip l).map (fun p => p.1 ++ [(k, p.2)])⟩

/-- `df[k] = v`: scalars broadcast to every row; a list must match the
row count; assigning a mapping uses pandas index alignment (unmodelled). -/
def setColumn (df : DF) (k : String) (v : Val) : Except String DF :=
  match v with
  | .obj _ => Except.error "unmodelled: assigning a mapping as a column"
  | .list l =>
    if l.length = df.rows.length then
      Except.ok (setColVals df k l)
    else
      Except.error "Length of values does not match length of index"
  | w => Except.ok (setColConst df k w)

/-- Per-cell explode semantics of `df.explode` (pandas): a non-empty list
becomes its elements, an empty list becomes a single NaN, and a non-list
value stays as a single unchanged cell. -/
def explodeCell : Val → List Val
  | .list [] => [Val.nan]
  | .list l => l
  | v => [v]

/-- The rows a single row contributes after exploding column `k`. -/
def explodeRowAt (k : String) (r : Row) : List Row :=
  (explodeCell (rowGet r k)).map (rowSet r k)

/-- `df.explode(k, ignore_index=True)`: raises `KeyError` when the column
does not exist, otherwise replaces each row by the rows of
`explodeRowAt`. -/
def dfExplode (df : DF) (k : String) : Except String DF :=
  if df.cols.contains k then
    Except.ok ⟨df.cols, df.rows.flatMap (explodeRowAt k)⟩
  else
    Except.error ("KeyError: " ++ k)

/-- Column name after applying a rename mapping (`df.rename(m, axis=1)`):
mapped when present, kept otherwise. -/
def renameKey (m : List (String × String)) (k : String) : String :=
  (alookup m k).getD k

/-- `df.rename(m, axis=1)`. -/
def renameDF (df : DF) (m : List (String × String)) : DF :=
  ⟨df.cols.map (renameKey m), df.rows.map (fun r => r.map (fun p => (renameKey m p.1, p.2)))⟩

/-- `data[k]` on a JSON value: `KeyError` when the key is absent,
`TypeError` when the value is not a mapping. -/
def dataGet (data : Val) (k : String) : Except String Val :=
  match data with
  | .obj fields =>
    match alookup fields k with
    | some v => Except.ok v
    | none => Except.error ("KeyError: " ++ k)
  | _ => Except.error "TypeError: value is not a mapping"

/-- The `insertables` loop of `_handle_results`:
`for insertable in insertables: df[insertable] = data[insertable]`. -/
def insertablesLoop (data : Val) (keys : List String) (df : DF) : Except String DF :=
  match keys with
  | [] => Except.ok df
  | k :: rest => do
    let v ← dataGet data k
    let df2 ← setColumn df k v
    insertablesLoop data rest df2

/-- The `explodeables` loop of `_handle_results`:
`for explodeable in explodeables: df = df.explode(explodeable, ignore_index=True)`. -/
def explodeLoop (keys : List String) (df : DF) : Except String DF :=
  match keys with
  | [] => Except.ok df
  | k :: rest => do
    let df2 ← dfExplode df k
    explodeLoop rest df2

/-- `common._handle_results(data, main_list, insertables, explodeables,
rename_dict)`: build the initial table from `data[main_list]` (a list of
mappings) or from `data` itself, broadcast the insertable keys, explode
the explodeable columns in listed order, and rename the columns. -/
def _handle_results (data : Val) (main_list : Option String)
    (insertables : Option (List String)) (explodeables : Option (List String))
    (rename_dict : Option (List (String × String))) : Except String DF := do
  let df ←
    match main_list with
    | some k => do
      let v ← dataGet data k
      match v with
      | .list records => pdDataFrameOfRecords records
      | _ => Except.error "unmodelled: main list value is not a list"
    | none =>
      match data with
      | .obj fields => pdDataFrameOfMapping fields
      | .list records => pdDataFrameOfRecords records
      | _ => Except.error "unmodelled: data is neither a mapping nor a list"
  let df2 ←
    match insertables with
    | none => Except.ok df
    | some ks => insertablesLoop data ks df
  let df3 ←
    match explodeables with
    | none => Except.ok df2
    | some ks => explodeLoop ks df2
  match rename_dict with
  | none => Except.ok df3
  | some m => Except.ok (renameDF df3 m)

/-! ## `common.py`: headers, numeric sanitization, dates -/

/-- `common._get_headers(access_token)`: the Bearer authorization header
attached to every data-plane request. -/
def _get_headers (access_token : String) : List (String × String) :=
  [("Authorization", "Bearer " ++ access_token)]

/-- The Unicode category Nd ("decimal digit") code-point ranges
(inclusive), the character class Python's `re` module matches with `\d`
on `str` patterns.  Each decimal-digit block is a run of ten code
points starting at the value listed. -/
def ndRangeStarts : List Nat :=
  [0x0030, 0x0660, 0x06F0, 0x07C0, 0x0966, 0x09E6, 0x0A66, 0x0AE6,
   0x0B66, 0x0BE6, 0x0C66, 0x0CE6, 0x0D66, 0x0DE6, 0x0E50, 0x0ED0,
   0x0F20, 0x1040, 0x1090, 0x17E0, 0x1810, 0x1946, 0x19D0, 0x1A80,
   0x1A90, 0x1B50, 0x1BB0, 0x1C40, 0x1C50, 0xA620, 0xA8D0, 0xA900,
   0xA9D0, 0xA9F0, 0xAA50, 0xABF0, 0xFF10,
   0x104A0, 0x10D30, 0x11066, 0x110F0, 0x11136, 0x111D0, 0x112F0,
   0x11450, 0x114D0, 0x11650, 0x116C0, 0x11730, 0x118E0, 0x11950,
   0x11C50, 0x11D50, 0x11DA0, 0x16A60, 0x16B50, 0x1D7CE, 0x1D7D8,
   0x1D7E2, 0x1D7EC, 0x1D7F6, 0x1E140, 0x1E2F0, 0x1E950, 0x1FBF0]

/-- A character Python's `\d` matches: member of some Nd range. -/
def isPyDigit (c : Char) : Bool :=
  ndRangeStarts.any (fun s => s ≤ c.toNat && c.toNat ≤ s + 9)

/-- `common._handle_numeric_string_with_symbols(v)`:
`re.sub(r"\D", "", v)` removes every character `\d` does not match and
keeps the matching ones in order. -/
def _handle_numeric_string_with_symbols (v : String) : String :=
  String.mk (v.data.filter isPyDigit)

/-- A calendar date as carried by Python's `datetime.date` /
`datetime.datetime` (only the date part matters to `%Y-%m-%d`). -/
structure PyDate where
  year : Nat
  month : Nat
  day : Nat
deriving Repr, DecidableEq

/-- The `DateLike` union of `common.py`: a `str`, a `date`, or a
`datetime`. -/
inductive DateLike where
  | str (s : String) : DateLike
  | date (d : PyDate) : DateLike
  | datetime (d : PyDate) : DateLike
deriving Repr

/-- Gregorian leap year, as implemented by Python's `datetime`. -/
def isLeapYear (y : Nat) : Bool :=
  (y % 4 == 0 && y % 100 != 0) || y % 400 == 0

/-- Days in a month, as validated by Python's `datetime` constructor. -/
def daysInMonth (y m : Nat) : Nat :=
  if m = 2 then (if isLeapYear y then 29 else 28)
  else if m = 4 ∨ m = 6 ∨ m = 9 ∨ m = 11 then 30
  else 31

/-- Decimal digits, most significant first, to a number (the group
conversion `strptime` performs). -/
def digitsToNat (l : List Char) : Nat :=
  l.foldl (fun n c => n * 10 + (c.toNat - 48)) 0

/-- Split a character list at the literal `-` separators of the
`%Y-%m-%d` format. -/
def splitOnDash : List Char → List (List Char)
  | [] => [[]]
  | c :: rest =>
    if c = '-' then [] :: splitOnDash rest
    else
      match splitOnDash rest with
      | [] => [[c]]
      | g :: gs => (c :: g) :: gs

/-- `datetime.strptime(s, "%Y-%m-%d")`: `%Y` matches exactly four
digits, `%m` and `%d` one or two digits in range, and the `datetime`
constructor then checks the day against the month length and rejects
year 0.  Returns `none` where Python raises `ValueError`. -/
def strptimeYmd (s : String) : Option PyDate :=
  match splitOnDash s.data with
  | [ys, ms, ds] =>
    if ys.length = 4 ∧ ys.all Char.isDigit
        ∧ 1 ≤ ms.length ∧ ms.length ≤ 2 ∧ ms.all Char.isDigit
        ∧ 1 ≤ ds.length ∧ ds.length ≤ 2 ∧ ds.all Char.isDigit then
      let y := digitsToNat ys
      let m := digitsToNat ms
      let d := digitsToNat ds
      if 1 ≤ y ∧ 1 ≤ m ∧ m ≤ 12 ∧ 1 ≤ d ∧ d ≤ daysInMonth y m then
        some ⟨y, m, d⟩
      else
        none
    else
      none
  | _ => none

/-- Zero-pad a number to two digits (`%m`, `%d`). -/
def pad2 (n : Nat) : String :=
  if n < 10 then "0" ++ toString n else toString n

/-- Zero-pad a number to four digits (`%Y`). -/
def pad4 (n : Nat) : String :=
  if n < 10 then "000" ++ toString n
  else if n < 100 then "00" ++ toString n
  else if n < 1000 then "0" ++ toString n
  else toString n

/-- `v.strftime("%Y-%m-%d")`. -/
def strftimeYmd (d : PyDate) : String :=
  pad4 d.year ++ "-" ++ pad2 d.month ++ "-" ++ pad2 d.day

/-- `common._handle_dates(v)` as written in the source: a string is
parsed with `strptime` (raising `ValueError` on mismatch), a `date` is
combined with the minimum time, and then `v.strftime("%Y-%m-%d")` is
computed into a local — but the function body contains no `return`
statement, so Python returns `None` on every successful path.  The
`Option String` result is the returned value: always `none`. -/
def _handle_dates (v : DateLike) : Except String (Option String) :=
  match v with
  | .str s =>
    match strptimeYmd s with
    | none => Except.error "ValueError: time data does not match format %Y-%m-%d"
    | some d =>
      let _formatted := strftimeYmd d
      Except.ok none
  | .date d =>
    let _formatted := strftimeYmd d
    Except.ok none
  | .datetime d =>
    let _formatted := strftimeYmd d
    Except.ok none

/-- Modelled from the spec: the *intended* `_handle_dates`, which the
specification assumes — identical to `_handle_dates` except that the
formatted `YYYY-MM-DD` string is returned instead of being discarded.
What is missing from the source is the `return` of the computed value. -/
def _handle_dates_intended (v : DateLike) : Except String (Option String) :=
  match v with
  | .str s =>
    match strptimeYmd s with
    | none => Except.error "ValueError: time data does not match format %Y-%m-%d"
    | some d => Except.ok (some (strftimeYmd d))
  | .date d => Except.ok (some (strftimeYmd d))
  | .datetime d => Except.ok (some (strftimeYmd d))

/-! ## Token cache (`_AccountabilityV3BaseAPI._check_and_update_access_token`) -/

/-- `common._time_between_access_token_requests = timedelta(minutes=10)`,
expressed in seconds (times in this model are integral seconds). -/
def _time_between_access_token_requests : Int := 600

/-- The mutable token state of a client instance: `_access_token` and
`_last_access_token_request_timestamp` (both absent before the first
acquisition). -/
structure TokenState where
  access_token : Option String
  last_request_ts : Option Int
deriving Repr, DecidableEq

/-- The identity provider's answer to the OAuth token request. -/
structure OAuthResponse where
  status : Nat
  access_token : String
deriving Repr, DecidableEq

/-- The message of the exception raised when the token endpoint answers
with a non-200 status. -/
def msgAuthFailure : String :=
  "Não foi possível adquirir as novas credenciais de acesso."

/-- The refresh gate of `_check_and_update_access_token`:
`is_first_access_token_request or is_access_token_expired`, where the
elapsed time is `0` on the first call and `now - last` afterwards, and
expiry is strict `>` against the 10-minute window. -/
def refreshDue (st : TokenState) (now : Int) : Bool :=
  let is_first_access_token_request := st.last_request_ts.isNone
  let diff_between_requests : Int :=
    match st.last_request_ts with
    | none => 0
    | some t => now - t
  let is_access_token_expired :=
    _time_between_access_token_requests < diff_between_requests
  is_first_access_token_request || decide is_access_token_expired

/-- `_check_and_update_access_token`, given the clock reading `now` at
entry, the clock reading `now2` after the token endpoint answers, and
that answer.  The result is the number of token-endpoint requests
performed (0 or 1), the raised exception message if any, and the token
state after the call (unchanged when the request fails or is skipped). -/
def _check_and_update_access_token (st : TokenState) (now now2 : Int)
    (resp : OAuthResponse) : Nat × Option String × TokenState :=
  if refreshDue st now then
    if resp.status ≠ 200 then
      (1, some msgAuthFailure, st)
    else
      (1, none, ⟨some resp.access_token, some now2⟩)
  else
    (0, none, st)

/-! ## Credential resolution (`_AccountabilityV3BaseAPI.__init__`) -/

/-- `os.getenv(name, default)`: the environment value when the variable
is set, the supplied default otherwise. -/
def osGetenv (envValue fallback : Option String) : Option String :=
  match envValue with
  | some v => some v
  | none => fallback

/-- The environment variables read by the constructor. -/
structure EnvVars where
  bb_api_app_key : Option String
  bb_api_client_id : Option String
  bb_api_client_secret : Option String
deriving Repr, DecidableEq

/-- Message of the `ValueError` raised when no application key is
available (concatenation of the source's adjacent string literals). -/
def msgMissingAppKey : String :=
  "Uma chave de aplicação inválida foi utilizada. Defina a chave por meio do parâmetro \x27app_key\x27 ou pelo variável de ambiente \x27BB_API_APP_KEY\x27."

/-- Message of the `ValueError` raised when no client id is available. -/
def msgMissingClientId : String :=
  "Um ID de cliente inválido foi utilizado. Defina a chave por meio do parâmetro \x27client_id\x27 ou pelo variável de ambiente \x27BB_API_CLIENT_ID\x27."

/-- Message of the `ValueError` raised when no client secret is
available.  The source's two adjacent literals meet without a space,
producing "deambiente". -/
def msgMissingClientSecret : String :=
  "Um segredo de cliente inválido foi utilizado. Defina a chave por meio do parâmetro \x27client_secret\x27 ou pelo variável deambiente \x27BB_API_CLIENT_SECRET\x27."

/-- The credential-resolution part of `_AccountabilityV3BaseAPI.__init__`:
each credential is `os.getenv(VAR, argument)` and a `ValueError` is
raised when the result is `None`; on success the resolved
`(app_key, client_id, client_secret)` triple is stored. -/
def initCredentials (env : EnvVars) (app_key client_id client_secret : Option String) :
    Except String (String × String × String) :=
  match osGetenv env.bb_api_app_key app_key with
  | none => Except.error msgMissingAppKey
  | some ak =>
    match osGetenv env.bb_api_client_id client_id with
    | none => Except.error msgMissingClientId
    | some ci =>
      match osGetenv env.bb_api_client_secret client_secret with
      | none => Except.error msgMissingClientSecret
      | some cs => Except.ok (ak, ci, cs)

/-- Naive substring test used to state that an error message names a
parameter and its environment variable. -/
def strContains (s pat : String) : Bool :=
  (List.range (s.data.length + 1)).any
    (fun i => decide (((s.data.drop i).take pat.data.length) = pat.data))

/-! ## Data-plane operations: request construction -/

/-- One identifier per data-plane operation.  `rep_` prefixes the
operations of `AccountabilityV3RepasseAPI`, `ctl_` those of
`AccountabilityV3ControleAPI`; `get_agencias_proximas` is defined on the
shared base class. -/
inductive OpId where
  | get_agencias_proximas
  | rep_get_extrato_programa_governo
  | rep_get_documento_despesas_programa_governo
  | rep_get_documento_despesas_prestacao_contas
  | rep_get_extrato_subtransacoes_programa_governo
  | rep_get_extrato_fundos_investimento
  | rep_get_extrato_poupanca
  | rep_get_lancamentos_atualizados
  | rep_get_sublancamentos_atualizados
  | rep_get_categorias_programa_governo
  | rep_get_saldo_aplicacoes_financeiras
  | rep_get_saldo_conta_corrente
  | rep_post_categoria_despesa_lancamento_credito
  | rep_post_identificacao_lancamento_credito
  | rep_delete_identificacao_lancamento_credito
  | rep_get_identificacao_lancamento_debito
  | ctl_get_extrato_programa_governo
  | ctl_get_documento_despesas_programa_governo
  | ctl_get_documento_despesas_prestacao_contas
  | ctl_get_extrato_subtransacoes_programa_governo
  | ctl_get_extrato_fundos_investimento
  | ctl_get_extrato_poupanca
  | ctl_get_contas_correntes
deriving Repr, DecidableEq

/-- A Python value handed to `requests` as a query-string or form-body
parameter value.  `noneVal` is Python's `None`. -/
inductive PVal where
  | str (s : String)
  | int (n : Int)
  | noneVal
deriving Repr, DecidableEq

/-- The value a date-bearing parameter receives from `_handle_dates`. -/
def pvalOfOptStr : Option String → PVal
  | some s => PVal.str s
  | none => PVal.noneVal

/-- The request an operation hands to `requests.request`: HTTP method,
full URL, header list, query-string parameters, and the `data=` dict (a
form-urlencoded body) when one is passed. -/
structure Request where
  method : String
  url : String
  headers : List (String × String)
  params : List (String × PVal)
  dataBody : Option (List (String × PVal))
deriving Repr, DecidableEq

/-- Python `str(...)` on an `int` path parameter. -/
def istr (n : Int) : String := toString n

/-- The caller-supplied inputs an operation may consume, together with
the client state it reads (`_api_domain`, `_app_key` and the access
token fetched by `_get_access_token`).  Fields whose Python parameter is
typed `str` in one variant and `int` in the other appear twice, with an
`_s` suffix for the `str` version. -/
structure OpArgs where
  api_domain : String
  app_key : String
  access_token : String
  cnpj : String
  cep : String
  branch_code : Int
  account_number : Int
  start_date : DateLike
  end_date : DateLike
  booking_date : DateLike
  data_inicio : DateLike
  data_fim : DateLike
  data_lancamento : DateLike
  transaction_id : Int
  subtransaction_id : Int
  document_id : Int
  stmt_id : Int
  id_subtransaction : Option String
  agencia : Int
  conta_corrente : Int
  agencia_s : String
  conta_corrente_s : String
  fundo_investimento_id : Int
  fundo_investimento_id_s : String
  mes : Int
  ano : Int
  variacao_poupanca : Int
  variacao_poupanca_s : String
  codigo_variacao : Int
  numero_programa_governo : Int
  pagina : Int
  numero_pagina : Int
  numero_registro : String
  ordem_bancaria : Int
  item : Int
  codigo_contrato : Int
  codigo_unidade_gestora : String
  codigo_categoria_despesa : Int
  codigo_listagem_cliente : String
  numero_bancario : Int
  numero_sequencial_ordem_bancaria : Int
  numero_companhia : Int
  valor_fracionado : Int
  tipo_identificacao : Int
  codigo_identificacao : String
  sequencial_lancamento : String
  sequencial_identificacao : String

/-- The request each operation builds, transcribed from the body of the
corresponding method (URL f-string, `headers=`, `params=`, `data=`).
Date inputs pass through `_handle_dates` (whose `ValueError` aborts the
operation before any request), numeric-looking strings through
`_handle_numeric_string_with_symbols`. -/
def buildRequest (op : OpId) (a : OpArgs) : Except String Request :=
  match op with
  | .get_agencias_proximas =>
    Except.ok ⟨"GET",
      a.api_domain ++ "/accountability/v3/agencias-proximas",
      _get_headers a.access_token,
      [("gw-dev-app-key", PVal.str a.app_key),
       ("cnpj", PVal.str (_handle_numeric_string_with_symbols a.cnpj)),
       ("cep", PVal.str (_handle_numeric_string_with_symbols a.cep))],
      none⟩
  | .rep_get_extrato_programa_governo => do
    let sd ← _handle_dates a.start_date
    let ed ← _handle_dates a.end_date
    Except.ok ⟨"GET",
      a.api_domain ++ "/accountability/v3/statements/" ++ istr a.branch_code
        ++ "-" ++ istr a.account_number,
      _get_headers a.access_token,
      [("gw-dev-app-key", PVal.str a.app_key),
       ("startDate", pvalOfOptStr sd),
       ("endDate", pvalOfOptStr ed)],
      none⟩
  | .rep_get_documento_despesas_programa_governo => do
    let bd ← _handle_dates a.booking_date
    Except.ok ⟨"GET",
      a.api_domain ++ "/accountability/v3/expenses/" ++ istr a.branch_code
        ++ "-" ++ istr a.account_number ++ "/transactions/" ++ istr a.transaction_id
        ++ "/documents/" ++ istr a.document_id,
      _get_headers a.access_token,
      [("gw-dev-app-key", PVal.str a.app_key),
       ("bookingDate", pvalOfOptStr bd)],
      none⟩
  | .rep_get_documento_despesas_prestacao_contas => do
    let bd ← _handle_dates a.booking_date
    Except.ok ⟨"GET",
      a.api_domain ++ "/accountability/v3/expenses/" ++ istr a.branch_code
        ++ "-" ++ istr a.account_number ++ "/transactions/" ++ istr a.transaction_id
        ++ "/subTransactions/" ++ istr a.subtransaction_id
        ++ "/documents/" ++ istr a.document_id,
      _get_headers a.access_token,
      [("gw-dev-app-key", PVal.str a.app_key),
       ("bookingDate", pvalOfOptStr bd)],
      none⟩
  | .rep_get_extrato_subtransacoes_programa_governo =>
    Except.ok ⟨"GET",
      a.api_domain ++ "/accountability/v3/statements/" ++ istr a.branch_code
        ++ "-" ++ istr a.account_number ++ "/debits/" ++ istr a.stmt_id
        ++ "/subtransactions",
      _get_headers a.access_token,
      [("gw-dev-app-key", PVal.str a.app_key)] ++
        (match a.id_subtransaction with
         | some v => [("idSubtransaction", PVal.str v)]
         | none => []),
      none⟩
  | .rep_get_extrato_fundos_investimento =>
    Except.ok ⟨"GET",
      a.api_domain ++ "/accountability/v3/extratos/" ++ istr a.agencia
        ++ "-" ++ istr a.conta_corrente ++ "/fundos-investimentos/"
        ++ istr a.fundo_investimento_id,
      _get_headers a.access_token,
      [("mes", PVal.int a.mes),
       ("ano", PVal.int a.ano),
       ("gw-dev-app-key", PVal.str a.app_key)],
      none⟩
  | .rep_get_extrato_poupanca =>
    Except.ok ⟨"GET",
      a.api_domain ++ "/accountability/v3/extratos/" ++ istr a.agencia
        ++ "-" ++ istr a.conta_corrente ++ "/poupanca/" ++ istr a.variacao_poupanca,
      _get_headers a.access_token,
      [("mes", PVal.int a.mes),
       ("ano", PVal.int a.ano),
       ("gw-dev-app-key", PVal.str a.app_key)],
      none⟩
  | .rep_get_lancamentos_atualizados => do
    let di ← _handle_dates a.data_inicio
    let dfim ← _handle_dates a.data_fim
    Except.ok ⟨"GET",
      a.api_domain ++ "/accountability/v3/programas-governo/"
        ++ istr a.numero_programa_governo ++ "/orgaos-repasse/lancamentos-atualizados",
      _get_headers a.access_token,
      [("dataInicio", pvalOfOptStr di),
       ("dataFim", pvalOfOptStr dfim),
       ("pagina", PVal.int a.pagina),
       ("gw-dev-app-key", PVal.str a.app_key)],
      none⟩
  | .rep_get_sublancamentos_atualizados => do
    let di ← _handle_dates a.data_inicio
    let dfim ← _handle_dates a.data_fim
    Except.ok ⟨"GET",
      a.api_domain ++ "/accountability/v3/programas-governo/"
        ++ istr a.numero_programa_governo ++ "/orgaos-repasse/sublancamentos-atualizados",
      _get_headers a.access_token,
      [("dataInicio", pvalOfOptStr di),
       ("dataFim", pvalOfOptStr dfim),
       ("pagina", PVal.int a.pagina),
       ("gw-dev-app-key", PVal.str a.app_key)],
      none⟩
  | .rep_get_categorias_programa_governo =>
    Except.ok ⟨"GET",
      a.api_domain ++ "/accountability/v3/programas-governo/"
        ++ istr a.numero_programa_governo ++ "/categorias",
      _get_headers a.access_token,
      [("gw-dev-app-key", PVal.str a.app_key)],
      none⟩
  | .rep_get_saldo_aplicacoes_financeiras =>
    Except.ok ⟨"GET",
      a.api_domain ++ "/accountability/v3/saldos/" ++ istr a.agencia
        ++ "-" ++ istr a.conta_corrente ++ "/aplicacoes-financeiras",
      _get_headers a.access_token,
      [],
      none⟩
  | .rep_get_saldo_conta_corrente =>
    Except.ok ⟨"GET",
      a.api_domain ++ "/accountability/v3/saldos/" ++ a.agencia_s
        ++ "-" ++ a.conta_corrente_s ++ "/conta-corrente",
      _get_headers a.access_token,
      [("gw-dev-app-key", PVal.str a.app_key)],
      none⟩
  | .rep_post_categoria_despesa_lancamento_credito =>
    Except.ok ⟨"POST",
      a.api_domain ++ "/accountability/v3/orgaos-repasse/lancamentos-credito/"
        ++ istr a.ordem_bancaria ++ "-" ++ istr a.item ++ "/categorias-despesa",
      ("Content-Type", "application/json") :: _get_headers a.access_token,
      [("gw-dev-app-key", PVal.str a.app_key)],
      some [("agencia", PVal.int a.agencia),
            ("contaCorrente", PVal.int a.conta_corrente),
            ("codigoContrato", PVal.int a.codigo_contrato),
            ("codigoUnidadeGestora", PVal.str a.codigo_unidade_gestora),
            ("codigoCategoriaDespesa", PVal.int a.codigo_categoria_despesa),
            ("codigoListagemCliente", PVal.str a.codigo_listagem_cliente)]⟩
  | .rep_post_identificacao_lancamento_credito => do
    let dl ← _handle_dates a.data_lancamento
    Except.ok ⟨"POST",
      a.api_domain ++ "/accountability/v3/orgaos-repasse/" ++ a.agencia_s
        ++ "-" ++ a.conta_corrente_s ++ "/lancamentos-credito",
      ("Content-Type", "application/json") :: _get_headers a.access_token,
      [("gw-dev-app-key", PVal.str a.app_key)],
      some [("numeroBancario", PVal.int a.numero_bancario),
            ("numeroSequencialOrdemBancaria", PVal.int a.numero_sequencial_ordem_bancaria),
            ("dataLancamento", pvalOfOptStr dl),
            ("numeroCompanhia", PVal.int a.numero_companhia),
            ("valorFracionado", PVal.int a.valor_fracionado),
            ("tipoIdentificacao", PVal.int a.tipo_identificacao),
            ("codigoIdentificacao", PVal.str a.codigo_identificacao)]⟩
  | .rep_delete_identificacao_lancamento_credito =>
    Except.ok ⟨"DELETE",
      a.api_domain ++ "/accountability/v3/orgaos-repasse/" ++ a.agencia_s
        ++ "-" ++ a.conta_corrente_s ++ "/lancamentos-credito/"
        ++ a.sequencial_lancamento ++ "-" ++ a.sequencial_identificacao,
      _get_headers a.access_token,
      [("gw-dev-app-key", PVal.str a.app_key)],
      none⟩
  | .rep_get_identificacao_lancamento_debito =>
    Except.ok ⟨"GET",
      a.api_domain ++ "/accountability/v3/orgaos-repasse/" ++ a.agencia_s
        ++ "-" ++ a.conta_corrente_s ++ "/lancamentos-debito",
      _get_headers a.access_token,
      [("gw-dev-app-key", PVal.str a.app_key),
       ("numeroPagina", PVal.int a.numero_pagina)],
      none⟩
  | .ctl_get_extrato_programa_governo => do
    let sd ← _handle_dates a.start_date
    let ed ← _handle_dates a.end_date
    Except.ok ⟨"GET",
      a.api_domain ++ "/accountability/v3/statements/" ++ istr a.branch_code
        ++ "-" ++ istr a.account_number ++ "/control-agencies",
      _get_headers a.access_token,
      [("gw-dev-app-key", PVal.str a.app_key),
       ("startDate", pvalOfOptStr sd),
       ("endDate", pvalOfOptStr ed)],
      none⟩
  | .ctl_get_documento_despesas_programa_governo => do
    let bd ← _handle_dates a.booking_date
    Except.ok ⟨"GET",
      a.api_domain ++ "/accountability/v3/expenses/" ++ istr a.branch_code
        ++ "-" ++ istr a.account_number ++ "/transactions/" ++ istr a.transaction_id
        ++ "/documents/" ++ istr a.document_id,
      _get_headers a.access_token,
      [("gw-dev-app-key", PVal.str a.app_key),
       ("bookingDate", pvalOfOptStr bd)],
      none⟩
  | .ctl_get_documento_despesas_prestacao_contas => do
    let bd ← _handle_dates a.booking_date
    Except.ok ⟨"GET",
      a.api_domain ++ "/accountability/v3/expenses/" ++ istr a.branch_code
        ++ "-" ++ istr a.account_number ++ "/transactions/" ++ istr a.transaction_id
        ++ "/subTransactions/" ++ istr a.subtransaction_id
        ++ "/documents/" ++ istr a.document_id,
      _get_headers a.access_token,
      [("gw-dev-app-key", PVal.str a.app_key),
       ("bookingDate", pvalOfOptStr bd)],
      none⟩
  | .ctl_get_extrato_subtransacoes_programa_governo =>
    Except.ok ⟨"GET",
      a.api_domain ++ "/accountability/v3/statements/" ++ istr a.branch_code
        ++ "-" ++ istr a.account_number ++ "/debits/" ++ istr a.stmt_id
        ++ "/control-agencies/subtransactions",
      _get_headers a.access_token,
      [("gw-dev-app-key", PVal.str a.app_key)],
      none⟩
  | .ctl_get_extrato_fundos_investimento =>
    Except.ok ⟨"GET",
      a.api_domain ++ "/accountability/v3/extratos/" ++ a.agencia_s
        ++ "-" ++ a.conta_corrente_s ++ "/fundos-investimentos/"
        ++ a.fundo_investimento_id_s ++ "/control-agencies",
      _get_headers a.access_token,
      [("mes", PVal.int a.mes),
       ("ano", PVal.int a.ano),
       ("gw-dev-app-key", PVal.str a.app_key)],
      none⟩
  | .ctl_get_extrato_poupanca =>
    Except.ok ⟨"GET",
      a.api_domain ++ "/accountability/v3/extratos/" ++ a.agencia_s
        ++ "-" ++ a.conta_corrente_s ++ "/poupanca/" ++ a.variacao_poupanca_s
        ++ "/orgao-controle",
      _get_headers a.access_token,
      [("gw-dev-app-key", PVal.str a.app_key),
       ("codigoVariacao", PVal.int a.codigo_variacao)],
      none⟩
  | .ctl_get_contas_correntes =>
    Except.ok ⟨"GET",
      a.api_domain ++ "/accountability/v3/conta-corrente/orgaos-controle",
      _get_headers a.access_token,
      [("gw-dev-app-key", PVal.str a.app_key),
       ("numeroRegistro", PVal.str a.numero_registro)],
      none⟩

/-! ## Status checks and error messages -/

/-- The error message shared by `get_categorias_programa_governo` and
(copy-pasted) by most other operations. -/
def msgListarCategorias : String :=
  "Não foi possível listar as categorias do programa de governo."

/-- The error message of the statement/expense-document operations. -/
def msgReaverExtrato : String :=
  "Não foi possível reaver o extrato do órgão repassador."

/-- The accepted HTTP status set of each operation: the three
credit-entry mutating operations test `not in [200, 201]`, every other
operation tests `!= 200`. -/
def acceptedStatuses : OpId → List Nat
  | .rep_post_categoria_despesa_lancamento_credito => [200, 201]
  | .rep_post_identificacao_lancamento_credito => [200, 201]
  | .rep_delete_identificacao_lancamento_credito => [200, 201]
  | _ => [200]

/-- The message of the exception each operation raises on a rejected
status, transcribed per operation from the source. -/
def opErrorMessage : OpId → String
  | .rep_get_extrato_programa_governo => msgReaverExtrato
  | .rep_get_documento_despesas_programa_governo => msgReaverExtrato
  | .rep_get_documento_despesas_prestacao_contas => msgReaverExtrato
  | .rep_get_extrato_subtransacoes_programa_governo => msgReaverExtrato
  | .ctl_get_extrato_programa_governo => msgReaverExtrato
  | .ctl_get_documento_despesas_programa_governo => msgReaverExtrato
  | .ctl_get_documento_despesas_prestacao_contas => msgReaverExtrato
  | _ => msgListarCategorias

/-- The status check every operation performs on its response:
`some message` when the operation raises, `none` when it proceeds. -/
def checkStatus (op : OpId) (status : Nat) : Option String :=
  if status ∈ acceptedStatuses op then none else some (opErrorMessage op)

/-! ## Concrete example inputs used by witnesses and counterexamples -/

/-- A concrete argument record for evaluating `buildRequest`. -/
def sampleArgs : OpArgs :=
  ⟨"https://api.hm.bb.com.br", "AK", "tok", "12.345.678/0001-90", "01310-100",
   1234, 56789,
   DateLike.str "2024-01-01", DateLike.date ⟨2024, 1, 31⟩, DateLike.date ⟨2024, 1, 15⟩,
   DateLike.date ⟨2024, 1, 1⟩, DateLike.date ⟨2024, 1, 31⟩, DateLike.date ⟨2024, 1, 15⟩,
   11, 22, 33, 44, none,
   7, 8, "7", "8", 9, "9", 1, 2024, 51, "51", 77, 99, 1, 1, "REG",
   1000, 3, 12, "UG", 5, "LC", 111, 222, 333, 444, 1, "CI", "SL", "SI"⟩

/-- The request `get_extrato_programa_governo` builds on `sampleArgs`:
both date parameters carry Python `None`. -/
def sampleExtratoReq : Request :=
  ⟨"GET", "https://api.hm.bb.com.br/accountability/v3/statements/1234-56789",
   [("Authorization", "Bearer tok")],
   [("gw-dev-app-key", PVal.str "AK"), ("startDate", PVal.noneVal), ("endDate", PVal.noneVal)],
   none⟩

/-- The request `get_saldo_aplicacoes_financeiras` builds on
`sampleArgs`: its query-parameter list is empty. -/
def sampleSaldoAplicacoesReq : Request :=
  ⟨"GET", "https://api.hm.bb.com.br/accountability/v3/saldos/7-8/aplicacoes-financeiras",
   [("Authorization", "Bearer tok")], [], none⟩

/-- The request `get_categorias_programa_governo` builds on `sampleArgs`. -/
def sampleCategoriasReq : Request :=
  ⟨"GET", "https://api.hm.bb.com.br/accountability/v3/programas-governo/99/categorias",
   [("Authorization", "Bearer tok")],
   [("gw-dev-app-key", PVal.str "AK")], none⟩

/-- The request `delete_identificacao_lancamento_credito` builds on
`sampleArgs`: Bearer header only, no body. -/
def sampleDeleteReq : Request :=
  ⟨"DELETE", "https://api.hm.bb.com.br/accountability/v3/orgaos-repasse/7-8/lancamentos-credito/SL-SI",
   [("Authorization", "Bearer tok")],
   [("gw-dev-app-key", PVal.str "AK")], none⟩

/-- The request `post_categoria_despesa_lancamento_credito` builds on
`sampleArgs`: JSON content type header, form-dict body. -/
def samplePostCategoriaReq : Request :=
  ⟨"POST", "https://api.hm.bb.com.br/accountability/v3/orgaos-repasse/lancamentos-credito/1000-3/categorias-despesa",
   [("Content-Type", "application/json"), ("Authorization", "Bearer tok")],
   [("gw-dev-app-key", PVal.str "AK")],
   some [("agencia", PVal.int 7), ("contaCorrente", PVal.int 8),
         ("codigoContrato", PVal.int 12), ("codigoUnidadeGestora", PVal.str "UG"),
         ("codigoCategoriaDespesa", PVal.int 5), ("codigoListagemCliente", PVal.str "LC")]⟩

/-- A one-row table whose column `b` holds an empty list. -/
def c4df : DF := ⟨["a", "b"], [[("a", Val.int 1), ("b", Val.list [])]]⟩

/-- A one-row table whose column `b` holds the two-element list of the
specification's explode example. -/
def c4dfPair : DF := ⟨["a", "b"], [[("a", Val.int 1), ("b", Val.list [Val.int 10, Val.int 20])]]⟩

/-- The row-extraction example of the specification:
`{"items": [{"a": 1}, {"a": 2}]}`. -/
def itemsEx : Val :=
  Val.obj [("items", Val.list [Val.obj [("a", Val.int 1)], Val.obj [("a", Val.int 2)]])]

/-! ## Helper lemmas -/

theorem exceptBind_ok {α β : Type} {e : Except String α} {f : α → Except String β} {b : β}
    (h : e >>= f = Except.ok b) : ∃ x, e = Except.ok x ∧ f x = Except.ok b := by
  cases e with
  | error s => simp [Bind.bind, Except.bind] at h
  | ok x => exact ⟨x, rfl, by simpa [Bind.bind, Except.bind] using h⟩

theorem alookup_rowSet_ne (r : Row) (k k2 : String) (v : Val) (hne : k2 ≠ k) :
    alookup (rowSet r k v) k2 = alookup r k2 := by
  induction r with
  | nil => rfl
  | cons p rest ih =>
    obtain ⟨pk, pv⟩ := p
    rw [show rowSet ((pk, pv) :: rest) k v
          = (if pk = k then (pk, v) else (pk, pv)) :: rowSet rest k v from rfl]
    by_cases hp : pk = k
    · have hk2 : ¬ pk = k2 := fun h => hne (h.symm.trans hp)
      rw [if_pos hp]
      rw [show alookup ((pk, v) :: rowSet rest k v) k2
            = if pk = k2 then some v else alookup (rowSet rest k v) k2 from rfl]
      rw [show alookup ((pk, pv) :: rest) k2
            = if pk = k2 then some pv else alookup rest k2 from rfl]
      rw [if_neg hk2, if_neg hk2]
      exact ih
    · rw [if_neg hp]
      rw [show alookup ((pk, pv) :: rowSet rest k v) k2
            = if pk = k2 then some pv else alookup (rowSet rest k v) k2 from rfl]
      rw [show alookup ((pk, pv) :: rest) k2
            = if pk = k2 then some pv else alookup rest k2 from rfl]
      by_cases hq : pk = k2
      · rw [if_pos hq, if_pos hq]
      · rw [if_neg hq, if_neg hq]
        exact ih

theorem recordFieldsList_length (recs : List Val)
    (frs : List (List (String × Val))) (h : recordFieldsList recs = some frs) :
    frs.length = recs.length := by
  induction recs generalizing frs with
  | nil => simp [recordFieldsList] at h; simp [← h]
  | cons v rest ih =>
    simp only [recordFieldsList] at h
    cases hv : recordFields v with
    | none => rw [hv] at h; simp at h
    | some f =>
      rw [hv] at h
      cases hr : recordFieldsList rest with
      | none => rw [hr] at h; simp at h
      | some fs =>
        rw [hr] at h
        simp at h
        subst h
        simp [ih fs hr]

/-! ## Claim theorems -/

/-- Claim C1 (code bug).  The date-handling helper `_handle_dates`
computes the `YYYY-MM-DD` string but returns no value: on the valid
input `"2024-01-01"` it yields Python `None` instead of the formatted
string, while the intended behaviour assumed by the specification
returns `"2024-01-01"`; consequently `get_extrato_programa_governo`
sends `None` as the value of its `startDate` and `endDate` query
parameters. -/
theorem C1_date_helper_returns_none :
    _handle_dates (DateLike.str "2024-01-01") = Except.ok none ∧
    _handle_dates_intended (DateLike.str "2024-01-01") = Except.ok (some "2024-01-01") ∧
    buildRequest OpId.rep_get_extrato_programa_governo sampleArgs = Except.ok sampleExtratoReq ∧
    ("startDate", PVal.noneVal) ∈ sampleExtratoReq.params ∧
    ("endDate", PVal.noneVal) ∈ sampleExtratoReq.params := by
  refine ⟨rfl, rfl, rfl, by decide, by decide⟩

/-- Claim C2 (confirmed).  The number of token-endpoint requests a call
to `_check_and_update_access_token` performs is exactly 1 when no token
was ever acquired, and, when a token was acquired `t0` time units before
`now`, exactly 1 when `now - t0 > 600` seconds and 0 otherwise — so at
exactly 10 minutes elapsed no refresh occurs. -/
theorem C2_token_refresh_gating (st : TokenState) (now now2 : Int) (resp : OAuthResponse) :
    (_check_and_update_access_token st now now2 resp).1 =
      (match st.last_request_ts with
       | none => 1
       | some t0 => if 600 < now - t0 then 1 else 0) := by
  obtain ⟨tok, lst⟩ := st
  cases lst with
  | none =>
    simp only [_check_and_update_access_token, refreshDue, Option.isNone_none, Bool.true_or,
      if_true]
    split <;> rfl
  | some t0 =>
    simp only [_check_and_update_access_token, refreshDue, Option.isNone_some, Bool.false_or,
      _time_between_access_token_requests]
    by_cases h : (600 : Int) < now - t0
    · rw [if_pos h]
      simp only [decide_eq_true_eq, h, if_true]
      split <;> rfl
    · rw [if_neg h]
      simp [h]

/-- Claim C3 (confirmed).  When the token endpoint answers with a status
other than 200 while a refresh is due, `_check_and_update_access_token`
raises the authentication error and leaves both the stored access token
and the last-acquired timestamp exactly as they were. -/
theorem C3_refresh_failure_preserves_state (st : TokenState) (now now2 : Int)
    (resp : OAuthResponse) (hs : resp.status ≠ 200) (hdue : refreshDue st now = true) :
    _check_and_update_access_token st now now2 resp = (1, some msgAuthFailure, st) := by
  simp [_check_and_update_access_token, hdue, hs]

/-- Witness for C3: a stored token acquired at time 0, a call at time
601 with a 500 answer — the returned state is unchanged. -/
theorem C3_refresh_failure_witness :
    _check_and_update_access_token ⟨some "tok0", some 0⟩ 601 601 ⟨500, "tok1"⟩ =
      (1, some msgAuthFailure, ⟨some "tok0", some 0⟩) :=
  C3_refresh_failure_preserves_state ⟨some "tok0", some 0⟩ 601 601 ⟨500, "tok1"⟩
    (by decide) (by decide)

/-- Claim C6 counterexample.  With all three environment variables set
and all three arguments passed, the constructor stores the environment
values: the explicitly passed argument does not override the environment
variable (the claimed precedence is reversed). -/
theorem C6_env_overrides_argument :
    initCredentials ⟨some "envAK", some "envCI", some "envCS"⟩
        (some "argAK") (some "argCI") (some "argCS") =
      Except.ok ("envAK", "envCI", "envCS") ∧
    ("envAK" : String) ≠ "argAK" :=
  ⟨rfl, by decide⟩

set_option maxRecDepth 8000 in
/-- Claim C6 (corrected).  Each credential is resolved as
`os.getenv(VAR, argument)`: the environment variable overrides the
explicitly passed argument, and the argument is only the fallback when
the variable is unset; when neither is set, construction fails with a
`ValueError` whose message names the parameter and its
environment-variable name. -/
theorem C6_credential_resolution (env : EnvVars) (a ci cs : Option String) :
    (∀ v, osGetenv (some v) a = some v) ∧
    (osGetenv none a = a) ∧
    (initCredentials env a ci cs =
      match osGetenv env.bb_api_app_key a, osGetenv env.bb_api_client_id ci,
            osGetenv env.bb_api_client_secret cs with
      | none, _, _ => Except.error msgMissingAppKey
      | some _, none, _ => Except.error msgMissingClientId
      | some _, some _, none => Except.error msgMissingClientSecret
      | some x, some y, some z => Except.ok (x, y, z)) ∧
    (strContains msgMissingAppKey "app_key" = true ∧
     strContains msgMissingAppKey "BB_API_APP_KEY" = true) ∧
    (strContains msgMissingClientId "client_id" = true ∧
     strContains msgMissingClientId "BB_API_CLIENT_ID" = true) ∧
    (strContains msgMissingClientSecret "client_secret" = true ∧
     strContains msgMissingClientSecret "BB_API_CLIENT_SECRET" = true) := by
  refine ⟨fun v => rfl, rfl, ?_, ⟨by decide, by decide⟩, ⟨by decide, by decide⟩,
    ⟨by decide, by decide⟩⟩
  cases h1 : osGetenv env.bb_api_app_key a <;>
    cases h2 : osGetenv env.bb_api_client_id ci <;>
      cases h3 : osGetenv env.bb_api_client_secret cs <;>
        simp [initCredentials, h1, h2, h3]

/-- Witness for C6: with no environment variables and no arguments,
construction fails with the app-key message. -/
theorem C6_credential_resolution_witness :
    initCredentials ⟨none, none, none⟩ none none none = Except.error msgMissingAppKey := by
  have h := C6_credential_resolution ⟨none, none, none⟩ none none none
  exact h.2.2.1

/-- Claim C8 counterexample.  `get_agencias_proximas` and
`get_categorias_programa_governo` are different operations raising the
identical error message (the copy-pasted "listar as categorias" text),
so the message does not name the failed operation. -/
theorem C8_message_not_operation_specific :
    opErrorMessage OpId.get_agencias_proximas =
      opErrorMessage OpId.rep_get_categorias_programa_governo ∧
    OpId.get_agencias_proximas ≠ OpId.rep_get_categorias_programa_governo ∧
    opErrorMessage OpId.get_agencias_proximas = msgListarCategorias :=
  ⟨rfl, by decide, rfl⟩

/-- Claim C8 (corrected).  Every operation raises exactly when the
response status is outside its accepted set — `{200}` for all
operations except the three credit-entry POST/DELETE operations, whose
set is `{200, 201}` — and the raised message is the operation's fixed
message; but the messages are copy-pasted rather than operation-specific
(see the counterexample). -/
theorem C8_status_gate (op : OpId) (status : Nat) :
    (checkStatus op status = none ↔ status ∈ acceptedStatuses op) ∧
    (acceptedStatuses op = [200] ∨ acceptedStatuses op = [200, 201]) ∧
    ((acceptedStatuses op = [200, 201]) ↔
      (op = OpId.rep_post_categoria_despesa_lancamento_credito ∨
       op = OpId.rep_post_identificacao_lancamento_credito ∨
       op = OpId.rep_delete_identificacao_lancamento_credito)) ∧
    (checkStatus op status ≠ none → checkStatus op status = some (opErrorMessage op)) := by
  refine ⟨?_, ?_, ?_, ?_⟩
  · by_cases h : status ∈ acceptedStatuses op <;> simp [checkStatus, h]
  · cases op <;> decide
  · cases op <;> decide
  · by_cases h : status ∈ acceptedStatuses op <;> simp [checkStatus, h]

/-- Witness for C8: a 500 answer to `get_agencias_proximas` raises its
fixed message. -/
theorem C8_status_gate_witness :
    checkStatus OpId.get_agencias_proximas 500 =
      some (opErrorMessage OpId.get_agencias_proximas) := by
  have h := C8_status_gate OpId.get_agencias_proximas 500
  exact h.2.2.2 (by decide)

/-- Claim C10 counterexample.  On the input consisting of the Arabic-Indic
digit three (U+0663), the sanitizer keeps the character — `\d` matches
every Unicode decimal digit — so its output is not made of ASCII digits
only. -/
theorem C10_unicode_digit_kept :
    _handle_numeric_string_with_symbols "٣" = "٣" ∧
    ((_handle_numeric_string_with_symbols "٣").data.all Char.isDigit) = false :=
  ⟨rfl, by decide⟩

/-- Claim C10 (corrected).  The sanitizer keeps exactly the characters
Python's `\d` matches (the Unicode decimal digits), in order — only
ASCII digits when the input is ASCII — and it is idempotent. -/
theorem C10_sanitize_digits (s : String) :
    (∀ c ∈ (_handle_numeric_string_with_symbols s).data, isPyDigit c = true) ∧
    (_handle_numeric_string_with_symbols s).data = s.data.filter isPyDigit ∧
    _handle_numeric_string_with_symbols (_handle_numeric_string_with_symbols s) =
      _handle_numeric_string_with_symbols s := by
  refine ⟨?_, rfl, ?_⟩
  · intro c hc
    simpa using (List.mem_filter.mp hc).2
  · have hd : ∀ l : List Char, (String.mk l).data = l := fun l => rfl
    unfold _handle_numeric_string_with_symbols
    rw [hd]
    congr 1
    generalize s.data = l
    induction l with
    | nil => rfl
    | cons c l2 ih =>
      cases h : isPyDigit c <;> simp [List.filter_cons, h, ih]

/-- Witness for C10 at the specification's example `"123.456-78"`. -/
theorem C10_sanitize_digits_witness :
    (∀ c ∈ (_handle_numeric_string_with_symbols "123.456-78").data, isPyDigit c = true) ∧
    (_handle_numeric_string_with_symbols "123.456-78").data =
      "123.456-78".data.filter isPyDigit ∧
    _handle_numeric_string_with_symbols (_handle_numeric_string_with_symbols "123.456-78") =
      _handle_numeric_string_with_symbols "123.456-78" :=
  C10_sanitize_digits "123.456-78"

/-- Claim C4 counterexample.  Exploding column `b` of a one-row table
whose `b` cell is the empty list keeps the row — with a NaN in that
column — instead of dropping it: the output has one row, not zero. -/
theorem C4_empty_list_row_not_dropped :
    dfExplode c4df "b" =
      Except.ok ⟨["a", "b"], [[("a", Val.int 1), ("b", Val.nan)]]⟩ ∧
    (dfExplode c4df "b").toOption.map (fun d => d.rows.length) = some 1 :=
  ⟨rfl, rfl⟩

/-- Claim C4 (corrected).  Exploding a column turns each row whose cell
is a non-empty list of length N into N rows, one element each, all
other columns duplicated; a row whose cell is an *empty* list yields one
row with a missing value (NaN) in that column — it is not dropped; a
row with a non-list cell stays a single unchanged row; the explodeable
keys are applied sequentially in listed order. -/
theorem C4_explode_semantics (k : String) (r : Row) (df : DF) :
    (∀ x xs, rowGet r k = Val.list (x :: xs) →
        explodeRowAt k r = (x :: xs).map (rowSet r k)) ∧
    (rowGet r k = Val.list [] → explodeRowAt k r = [rowSet r k Val.nan]) ∧
    (isListVal (rowGet r k) = false → explodeRowAt k r = [rowSet r k (rowGet r k)]) ∧
    (∀ k2 v, k2 ≠ k → rowGet (rowSet r k v) k2 = rowGet r k2) ∧
    (∀ df2, dfExplode df k = Except.ok df2 → df2.rows = df.rows.flatMap (explodeRowAt k)) ∧
    (∀ k2, explodeLoop [k, k2] df = (dfExplode df k).bind (fun d => dfExplode d k2)) := by
  refine ⟨?_, ?_, ?_, ?_, ?_, ?_⟩
  · intro x xs h
    simp [explodeRowAt, h, explodeCell]
  · intro h
    simp [explodeRowAt, h, explodeCell]
  · intro h
    cases hv : rowGet r k with
    | list l => rw [hv] at h; simp [isListVal] at h
    | nan => simp [explodeRowAt, hv, explodeCell]
    | int n => simp [explodeRowAt, hv, explodeCell]
    | str s => simp [explodeRowAt, hv, explodeCell]
    | bool b => simp [explodeRowAt, hv, explodeCell]
    | obj f => simp [explodeRowAt, hv, explodeCell]
  · intro k2 v hne
    simp [rowGet, alookup_rowSet_ne r k k2 v hne]
  · intro df2 h
    unfold dfExplode at h
    by_cases hc : df.cols.contains k
    · rw [if_pos hc] at h
      injection h with h2
      rw [← h2]
    · rw [if_neg hc] at h
      exact Except.noConfusion h
  · intro k2
    simp only [explodeLoop]
    cases h : dfExplode df k with
    | error e => simp [Bind.bind, Except.bind]
    | ok d =>
      simp only [Bind.bind, Except.bind, explodeLoop]
      cases h2 : dfExplode d k2 with
      | error e => simp [Bind.bind, Except.bind]
      | ok d2 => simp [Bind.bind, Except.bind]

/-- Witness for C4 at the specification's example: the row
`{"a": 1, "b": [10, 20]}` explodes into the two expected rows. -/
theorem C4_explode_semantics_witness :
    explodeRowAt "b" [("a", Val.int 1), ("b", Val.list [Val.int 10, Val.int 20])] =
      [[("a", Val.int 1), ("b", Val.int 10)], [("a", Val.int 1), ("b", Val.int 20)]] := by
  have h := C4_explode_semantics "b"
    [("a", Val.int 1), ("b", Val.list [Val.int 10, Val.int 20])] c4dfPair
  rw [h.1 (Val.int 10) [Val.int 20] rfl]
  rfl

/-- Claim C5 counterexample.  With no `main_list`, a JSON mapping whose
values are all scalars does not become a one-row table: `pd.DataFrame`
raises `ValueError` ("If using all scalar values, you must pass an
index"), so `_handle_results` fails instead of returning a table. -/
theorem C5_scalar_mapping_error :
    _handle_results (Val.obj [("a", Val.int 1)]) none none none none =
      Except.error "If using all scalar values, you must pass an index" ∧
    (_handle_results (Val.obj [("a", Val.int 1)]) none none none none).toOption = none :=
  ⟨rfl, rfl⟩

/-- Claim C5 (corrected).  With `main_list` set, the initial rows are
exactly the elements of `data[main_list]` in source order (the
specification's `{"items": [{"a": 1}, {"a": 2}]}` example yields the
two-row table with column `a` = [1, 2], and in general the row count
equals the list length); with `main_list` unset and a non-empty
all-scalar mapping, the shaper raises the pandas `ValueError` instead
of building a one-row table. -/
theorem C5_row_extraction (data : Val) (k : String) (recs : List Val) :
    (_handle_results itemsEx (some "items") none none none =
      Except.ok ⟨["a"], [[("a", Val.int 1)], [("a", Val.int 2)]]⟩) ∧
    (dataGet data k = Except.ok (Val.list recs) →
      _handle_results data (some k) none none none = pdDataFrameOfRecords recs) ∧
    (∀ frs, recordFieldsList recs = some frs →
      ∃ df, pdDataFrameOfRecords recs = Except.ok df ∧
        df.rows.length = recs.length ∧ df.cols = unionKeys frs) ∧
    (∀ fields, fields ≠ [] → fields.all (fun p => isScalar p.2) = true →
      _handle_results (Val.obj fields) none none none none =
        Except.error "If using all scalar values, you must pass an index") := by
  refine ⟨rfl, ?_, ?_, ?_⟩
  · intro h
    simp only [_handle_results, h, Bind.bind, Except.bind]
    cases hpd : pdDataFrameOfRecords recs with
    | error e => simp [hpd, Bind.bind, Except.bind]
    | ok d => simp [hpd, Bind.bind, Except.bind]
  · intro frs h
    refine ⟨⟨unionKeys frs,
      frs.map (fun r => (unionKeys frs).map (fun c => (c, rowGet r c)))⟩, ?_, ?_, rfl⟩
    · unfold pdDataFrameOfRecords
      rw [h]
    · simp [recordFieldsList_length recs frs h]
  · intro fields hne hsc
    cases fields with
    | nil => exact absurd rfl hne
    | cons p rest =>
      simp only [_handle_results, pdDataFrameOfMapping, hsc, if_true, Bind.bind, Except.bind]

/-- Witness for C5: the `items` example routed through
`_handle_results` coincides with `pd.DataFrame` over the list. -/
theorem C5_row_extraction_witness :
    _handle_results itemsEx (some "items") none none none =
      pdDataFrameOfRecords [Val.obj [("a", Val.int 1)], Val.obj [("a", Val.int 2)]] := by
  have h := C5_row_extraction itemsEx "items"
    [Val.obj [("a", Val.int 1)], Val.obj [("a", Val.int 2)]]
  exact h.2.1 rfl

/-- Claim C7 counterexample.  `get_saldo_aplicacoes_financeiras` passes
no `params=` at all: its request carries no query parameters, hence no
`gw-dev-app-key`. -/
theorem C7_saldo_aplicacoes_no_app_key :
    buildRequest OpId.rep_get_saldo_aplicacoes_financeiras sampleArgs =
      Except.ok sampleSaldoAplicacoesReq ∧
    sampleSaldoAplicacoesReq.params = [] :=
  ⟨rfl, rfl⟩

/-- Claim C7 (corrected).  Every data-plane operation of both client
variants *except* `get_saldo_aplicacoes_financeiras` sends the
`gw-dev-app-key` query parameter holding the application key supplied at
construction. -/
theorem C7_gw_dev_app_key_param (op : OpId) (a : OpArgs) (r : Request)
    (hok : buildRequest op a = Except.ok r)
    (hne : op ≠ OpId.rep_get_saldo_aplicacoes_financeiras) :
    ("gw-dev-app-key", PVal.str a.app_key) ∈ r.params := by
  cases op <;>
    first
      | exact absurd rfl hne
      | (simp only [buildRequest] at hok
         injection hok with h
         subst h
         simp)
      | (simp only [buildRequest, Bind.bind] at hok
         obtain ⟨x1, hx1, hok⟩ := exceptBind_ok hok
         injection hok with h
         subst h
         simp)
      | (simp only [buildRequest, Bind.bind] at hok
         obtain ⟨x1, hx1, hok⟩ := exceptBind_ok hok
         obtain ⟨x2, hx2, hok⟩ := exceptBind_ok hok
         injection hok with h
         subst h
         simp)

/-- Witness for C7: the categories request on concrete arguments
carries the key. -/
theorem C7_gw_dev_app_key_witness :
    ("gw-dev-app-key", PVal.str sampleArgs.app_key) ∈ sampleCategoriasReq.params :=
  C7_gw_dev_app_key_param OpId.rep_get_categorias_programa_governo sampleArgs
    sampleCategoriasReq rfl (by decide)

/-- Claim C9 counterexample.  The DELETE operation
(`delete_identificacao_lancamento_credito`) sends neither a
`Content-Type: application/json` header nor any body: its headers are
the Bearer header alone and it passes no `data=`. -/
theorem C9_delete_without_json :
    buildRequest OpId.rep_delete_identificacao_lancamento_credito sampleArgs =
      Except.ok sampleDeleteReq ∧
    ¬ (("Content-Type", "application/json") ∈ sampleDeleteReq.headers) ∧
    sampleDeleteReq.dataBody = none :=
  ⟨rfl, by decide, rfl⟩

/-- Claim C9 (corrected).  Of the three mutating operations, the two
POSTs send `Content-Type: application/json` together with the Bearer
header and pass their body as a `data=` dict (form-urlencoded by
`requests`, not JSON-serialized); the DELETE sends only the Bearer
header and no body at all. -/
theorem C9_mutating_request_shape (a : OpArgs) :
    (∀ r, buildRequest OpId.rep_post_categoria_despesa_lancamento_credito a = Except.ok r →
      ("Content-Type", "application/json") ∈ r.headers ∧
      ("Authorization", "Bearer " ++ a.access_token) ∈ r.headers ∧
      r.dataBody = some [("agencia", PVal.int a.agencia),
                         ("contaCorrente", PVal.int a.conta_corrente),
                         ("codigoContrato", PVal.int a.codigo_contrato),
                         ("codigoUnidadeGestora", PVal.str a.codigo_unidade_gestora),
                         ("codigoCategoriaDespesa", PVal.int a.codigo_categoria_despesa),
                         ("codigoListagemCliente", PVal.str a.codigo_listagem_cliente)]) ∧
    (∀ r, buildRequest OpId.rep_post_identificacao_lancamento_credito a = Except.ok r →
      ("Content-Type", "application/json") ∈ r.headers ∧
      ("Authorization", "Bearer " ++ a.access_token) ∈ r.headers ∧
      r.dataBody.isSome = true) ∧
    (∀ r, buildRequest OpId.rep_delete_identificacao_lancamento_credito a = Except.ok r →
      ¬ (("Content-Type", "application/json") ∈ r.headers) ∧
      ("Authorization", "Bearer " ++ a.access_token) ∈ r.headers ∧
      r.dataBody = none) := by
  refine ⟨?_, ?_, ?_⟩
  · intro r hok
    simp only [buildRequest] at hok
    injection hok with h
    subst h
    exact ⟨by simp, by simp [_get_headers], rfl⟩
  · intro r hok
    simp only [buildRequest, Bind.bind] at hok
    obtain ⟨dl, hdl, hok⟩ := exceptBind_ok hok
    injection hok with h
    subst h
    exact ⟨by simp, by simp [_get_headers], rfl⟩
  · intro r hok
    simp only [buildRequest] at hok
    injection hok with h
    subst h
    refine ⟨?_, by simp [_get_headers], rfl⟩
    intro hmem
    simp [_get_headers] at hmem

/-- Witness for C9 on concrete arguments: the POST carries the JSON
content type, the DELETE carries no body. -/
theorem C9_mutating_request_witness :
    ("Content-Type", "application/json") ∈ samplePostCategoriaReq.headers ∧
    sampleDeleteReq.dataBody = none := by
  have h := C9_mutating_request_shape sampleArgs
  exact ⟨(h.1 samplePostCategoriaReq rfl).1, (h.2.2 sampleDeleteReq rfl).2.2⟩
